import Mathlib

/-!
Shallow embedding of src/organizer.py (the file-organizing pipeline of
Sarthak1642/file_organization) and proofs about it.

Paths are modelled as lists of segments.  Filesystem effects are made
explicit: each file entry carries the values the code would read from the
filesystem (suffix, size, modification-time fields, content-hash result)
together with fields saying whether the individual filesystem operations
raise an exception (the stat call, the move into the duplicates folder,
and the destination creation / move), so that the try/except structure of
the loop can be traced faithfully.

The progress percent int((i / total) * 100) is computed by the source in
IEEE-754 double arithmetic.  Inside the loop model it is read as exact
rational arithmetic followed by truncation (Nat floor division); no
theorem below depends on that reading.  The float semantics of the same
expression is modelled separately and exactly (correct rounding to 53
bits, ties to even, in roundQ and pyFloatPercent below), which exhibits
the inputs where the double computation undershoots the exact floor, for
example i = 29 of total = 50, where the source emits 57 while the exact
floor is 58.
-/

/-- A filesystem entry enumerated from the target folder, with the
observable behaviour of the filesystem operations the loop performs on it.
A field value of none for an error slot means the operation succeeds. -/
structure FileEntry where
  name : String
  /-- file.suffix in the source. -/
  ext : String
  /-- file.stat().st_size in the source. -/
  size : Nat
  /-- year field of the modification time, as read by strftime %Y. -/
  mtimeYear : Nat
  /-- month field of the modification time, as read by strftime %m. -/
  mtimeMonth : Nat
  /-- result of calculate_hash: the source swallows every exception of the
  hashing read loop and returns None, embedded here as none. -/
  hash : Option String
  /-- folder.iterdir() classification: f.is_file() in the source. -/
  is_file : Bool
  /-- exception message raised by file.stat(), if any. -/
  statError : Option String
  /-- exception message raised while creating the duplicates folder or
  moving the file into it, if any. -/
  dupMoveError : Option String
  /-- exception message raised while creating the destination directory or
  moving the file into it, if any. -/
  moveError : Option String
  deriving DecidableEq

/-- The run configuration: the folder path, the organize mode string, the
duplicate-check flag, whether a progress callback was supplied, and the
MIME guess of mimetypes.guess_type composed with taking the mime string,
already specialised to the lower-cased extension. -/
structure Config where
  folder : List String
  organize_mode : String
  check_duplicates : Bool
  hasCallback : Bool
  guessMime : String → Option String

/-- FILE_CATEGORIES table of the source, in its insertion order. -/
def FILE_CATEGORIES : List (String × List String) :=
  [(("Documents"), [(".pdf"), (".docx"), (".txt"), (".pptx"), (".xlsx"), (".csv")]),
   (("Images"), [(".jpg"), (".jpeg"), (".png"), (".gif"), (".bmp"), (".svg")]),
   (("Videos"), [(".mp4"), (".mkv"), (".avi"), (".mov")]),
   (("Music"), [(".mp3"), (".wav"), (".aac"), (".flac")]),
   (("Archives"), [(".zip"), (".rar"), (".tar"), (".gz")])]

/-- Python str.lower: every character lower-cased. -/
def pyLower (s : String) : String := String.mk (s.data.map Char.toLower)

/-- Python str.capitalize: first character upper-cased, rest lower-cased. -/
def pyCapitalize (s : String) : String :=
  match s.data with
  | [] => s
  | c :: cs => String.mk (c.toUpper :: cs.map Char.toLower)

/-- Python mime.split("/")[0]: the prefix of the string before its first
slash (the whole string when it has no slash). -/
def mainTypeOf (mime : String) : String :=
  String.mk (mime.data.takeWhile (fun c => c ≠ ('/')))

/-- get_category of the source.  The call
mimetypes.guess_type("file" + ext)[0] is abstracted as the function gm
applied to the lower-cased extension. -/
def get_category (gm : String → Option String) (extension : String) : String :=
  let ext := pyLower extension
  match FILE_CATEGORIES.find? (fun p => p.2.contains ext) with
  | some p => p.1
  | none =>
    match gm ext with
    | some mime =>
      let mainType := mainTypeOf mime
      if [("image"), ("video"), ("audio")].contains mainType then
        pyCapitalize mainType ++ "s"
      else "Others"
    | none => "Others"

/-- calculate_hash of the source: reads the file in 64 KiB blocks feeding
an MD5 accumulator and returns None on any exception.  The digest (or the
None outcome) is the hash field of the entry. -/
def calculate_hash (f : FileEntry) : Option String :=
  f.hash

/-- Zero-padding used by strftime: %Y pads the year to four digits and %m
pads the month to two digits. -/
def padZeros (w : Nat) (s : String) : String :=
  (List.replicate (w - s.length) ('0')).asString ++ s

def formatYear (y : Nat) : String := padZeros 4 (toString y)

def formatMonth (m : Nat) : String := padZeros 2 (toString m)

/-- get_destination_path of the source.  Note the source computes the
modification time strings before dispatching on the two dated modes, and
falls through to folder / category for any other mode string. -/
def get_destination_path (folder : List String) (f : FileEntry)
    (category : String) (organize_mode : String) : List String :=
  if organize_mode = "Category Only" then folder ++ [category]
  else
    let year := formatYear f.mtimeYear
    let month_year := formatYear f.mtimeYear ++ "-" ++ formatMonth f.mtimeMonth
    if organize_mode = "Category / Year" then folder ++ [category, year]
    else if organize_mode = "Category / Year-Month" then folder ++ [category, month_year]
    else folder ++ [category]

/-- The mutable state threaded through the loop of organize_files:
the accumulated log lines, the seen-hash association (hash, first name),
the duplicate counters, the running size total, the per-category counts in
dict insertion order, the progress events delivered to the callback, and
the moves performed so far as (file name, destination directory) pairs. -/
structure RunState where
  logs : List String
  seen : List (String × String)
  duplicate_files : Nat
  space_saved_bytes : Nat
  total_size_bytes : Nat
  categories : List (String × Nat)
  events : List (Nat × String)
  moves : List (String × List String)

def initState : RunState :=
  { logs := [], seen := [], duplicate_files := 0, space_saved_bytes := 0,
    total_size_bytes := 0, categories := [], events := [], moves := [] }

/-- analytics["categories"].setdefault(category, 0) followed by += 1:
increment in place when present, else append with count 1. -/
def bumpCategory (cats : List (String × Nat)) (cat : String) : List (String × Nat) :=
  if cats.any (fun p => p.1 == cat) then
    cats.map (fun p => if p.1 == cat then (p.1, p.2 + 1) else p)
  else cats ++ [(cat, 1)]

/-- Lines 128-139 of the source: categorize, count the category, resolve
the destination, create it and move.  Returns the updated state, the
log_entry value, and false for the third component (the duplicate-removal
flag used by the caller to pick the progress message).  An exception in
destination creation or move (moveError) produces the ERROR log entry of
the except branch; the category count has already been updated by then. -/
def organizePhase (cfg : Config) (st : RunState) (f : FileEntry) :
    RunState × String × Bool :=
  let category := get_category cfg.guessMime f.ext
  let st := { st with categories := bumpCategory st.categories category }
  match f.moveError with
  | some e => (st, "ERROR moving " ++ f.name ++ ": " ++ e, false)
  | none =>
    let dest := get_destination_path cfg.folder f category cfg.organize_mode
    ({ st with moves := st.moves ++ [(f.name, dest)] },
     "Moved: " ++ f.name ++ " → " ++ String.intercalate ("/") (dest.drop cfg.folder.length),
     false)

/-- The body of the try statement for one file (lines 100-141), excluding
the trailing log append and progress emission shared by all outcomes.
Returns the updated state, the final log_entry value, and whether the
duplicate-removal branch completed (it emits its own progress message).
The Warning string assigned when the hash is None (line 109) is dead in
the source: log_entry is unconditionally reassigned by the Moved line or
the except branch before the single append, so no Warning value can reach
the logs; the embedding therefore proceeds directly to the organize
phase in that case. -/
def fileStep (cfg : Config) (st : RunState) (f : FileEntry) :
    RunState × String × Bool :=
  match f.statError with
  | some e => (st, "ERROR moving " ++ f.name ++ ": " ++ e, false)
  | none =>
    let st := { st with total_size_bytes := st.total_size_bytes + f.size }
    if cfg.check_duplicates then
      match f.hash with
      | none => organizePhase cfg st f
      | some h =>
        match st.seen.lookup h with
        | some _ =>
          let st := { st with duplicate_files := st.duplicate_files + 1,
                              space_saved_bytes := st.space_saved_bytes + f.size }
          match f.dupMoveError with
          | some e => (st, "ERROR moving " ++ f.name ++ ": " ++ e, false)
          | none =>
            ({ st with moves := st.moves ++ [(f.name, cfg.folder ++ [("Duplicates (Removed)")])] },
             "DUPLICATE REMOVED: " ++ f.name ++ " -> Duplicates", true)
        | none => organizePhase cfg { st with seen := st.seen ++ [(h, f.name)] } f
    else organizePhase cfg st f

/-- One full iteration of the loop for the file at 1-based index i of
total: run the try body, append the single log_entry, and emit one
progress event when a callback is present.  The percent int((i / total) *
100) is read here with exact arithmetic as Nat floor division; the source
computes it in IEEE double arithmetic, which can undershoot this value by
one (see pyFloatPercent); no theorem relies on the percents emitted by
this function. -/
def processFile (cfg : Config) (total : Nat) (st : RunState) (i : Nat)
    (f : FileEntry) : RunState :=
  let pct := (100 * i) / total
  let r := fileStep cfg st f
  let msg := if r.2.2 then r.2.1
             else "Processing " ++ f.name ++ " (" ++ toString i ++ "/" ++ toString total ++ ")"
  let st2 := { r.1 with logs := r.1.logs ++ [r.2.1] }
  if cfg.hasCallback then { st2 with events := st2.events ++ [(pct, msg)] } else st2

/-- The for loop of organize_files, folding processFile over the files
with their 1-based indices. -/
def runLoop (cfg : Config) (total : Nat) : RunState → Nat → List FileEntry → RunState
  | st, _, [] => st
  | st, i, f :: rest => runLoop cfg total (processFile cfg total st i f) (i + 1) rest

/-- The eligibility filter of organize_files: regular files whose name is
not one of the entry-point scripts. -/
def eligible (entries : List FileEntry) : List FileEntry :=
  entries.filter (fun f => f.is_file && !(f.name == "app.py" || f.name == "organizer.py"))

/-- The analytics dictionary returned by organize_files. -/
structure Analytics where
  total_files : Nat
  total_size_bytes : Nat
  categories : List (String × Nat)
  time_taken_sec : Nat
  duplicates_removed : Nat
  space_saved_bytes : Nat
  logs : List String

/-- Everything observable about one call of organize_files: the returned
log list and analytics, the progress events delivered to the callback,
the moves performed, and the final seen-hash table. -/
structure RunResult where
  logs : List String
  analytics : Analytics
  events : List (Nat × String)
  moves : List (String × List String)
  seen : List (String × String)

/-- organize_files of the source.  elapsed stands for the wall-clock
duration round(time.time() - start, 3) recorded into time_taken_sec. -/
def organize_files (cfg : Config) (elapsed : Nat) (entries : List FileEntry) :
    RunResult :=
  let files := eligible entries
  let total := files.length
  if total = 0 then
    { logs := [],
      analytics := { total_files := 0, total_size_bytes := 0, categories := [],
                     time_taken_sec := elapsed, duplicates_removed := 0,
                     space_saved_bytes := 0, logs := [] },
      events := if cfg.hasCallback then [(100, "No files to organize")] else [],
      moves := [], seen := [] }
  else
    let st := runLoop cfg total initState 1 files
    { logs := st.logs,
      analytics := { total_files := total, total_size_bytes := st.total_size_bytes,
                     categories := st.categories, time_taken_sec := elapsed,
                     duplicates_removed := st.duplicate_files,
                     space_saved_bytes := st.space_saved_bytes, logs := st.logs },
      events := st.events ++
        (if cfg.hasCallback then
           [(100, "Completed — " ++ toString total ++ " files organized.")]
         else []),
      moves := st.moves, seen := st.seen }

/-- The exception, if any, that the try body raises for a file given the
duplicate-check flag and the seen-hash table at that point: the stat call
first, then the duplicates-folder move when the file is a known
duplicate, otherwise the destination creation / move. -/
def fileError (check_duplicates : Bool) (seen : List (String × String))
    (f : FileEntry) : Option String :=
  match f.statError with
  | some e => some e
  | none =>
    if check_duplicates then
      match f.hash with
      | none => f.moveError
      | some h =>
        match seen.lookup h with
        | some _ => f.dupMoveError
        | none => f.moveError
    else f.moveError

/-- Fuel-bounded search for the smallest s with a * 2 ^ s ≥ b; a fuel of b
suffices for positive a since s never exceeds the bit length of b. -/
def upShift : Nat → Nat → Nat → Nat
  | 0, _, _ => 0
  | fuel + 1, a, b => if b ≤ a then 0 else upShift fuel (2 * a) b + 1

/-- Fuel-bounded search for the smallest t with a < 2 ^ (t + 1) * b, the
binade exponent of a / b when a ≥ b; a fuel of a suffices. -/
def downShift : Nat → Nat → Nat → Nat
  | 0, _, _ => 0
  | fuel + 1, a, b => if a < 2 * b then 0 else downShift fuel a (2 * b) + 1

/-- IEEE-754 round to nearest, ties to even: given the truncated mantissa
m0 of a quotient with remainder r over divisor b, round up when the
discarded fraction r / b exceeds one half, down when below, and to the
even mantissa on an exact tie. -/
def halfEven (m0 r b : Nat) : Nat :=
  if 2 * r > b then m0 + 1
  else if 2 * r < b then m0
  else if m0 % 2 = 1 then m0 + 1 else m0

/-- The IEEE-754 double nearest to a / b, returned as (m, e) standing for
the value m / 2 ^ e: the quotient is scaled into the binade [2^52, 2^53)
and rounded to nearest, ties to even.  Faithful for positive quotients
below 2^52 (far above the percents computed here); zero inputs give 0. -/
def roundQ (a b : Nat) : Nat × Nat :=
  if a = 0 ∨ b = 0 then (0, 0)
  else if a < b then
    let s := upShift b a b
    let num := a * 2 ^ (s + 52)
    (halfEven (num / b) (num % b) b, s + 52)
  else
    let t := downShift a a b
    let num := a * 2 ^ (52 - t)
    (halfEven (num / b) (num % b) b, 52 - t)

/-- The per-file progress percent exactly as the source computes it:
int((i / total) * 100) under IEEE-754 double semantics — the correctly
rounded double of i / total, the correctly rounded double of that value
times 100, then truncation toward zero. -/
def pyFloatPercent (i total : Nat) : Nat :=
  let q := roundQ i total
  let p := roundQ (100 * q.1) (2 ^ q.2)
  p.1 / 2 ^ p.2

def gmAudio : String → Option String :=
  fun e => if e = ".xyz" then some ("audio/mpeg") else none

def gmNone : String → Option String := fun _ => none

def exFile : FileEntry :=
  { name := "photo.jpg", ext := ".jpg", size := 5, mtimeYear := 2024,
    mtimeMonth := 7, hash := some ("h1"), is_file := true, statError := none,
    dupMoveError := none, moveError := none }

def cfg0 : Config :=
  { folder := [("root")], organize_mode := "Category Only",
    check_duplicates := true, hasCallback := true, guessMime := fun _ => none }

def cfg1 : Config := { cfg0 with check_duplicates := false }

def fTxt : FileEntry :=
  { name := "notes.txt", ext := ".txt", size := 7, mtimeYear := 2023,
    mtimeMonth := 12, hash := some ("h2"), is_file := true, statError := none,
    dupMoveError := none, moveError := none }

def fBad : FileEntry :=
  { name := "bad.txt", ext := ".txt", size := 3, mtimeYear := 2024,
    mtimeMonth := 7, hash := none, is_file := true,
    statError := some ("denied"), dupMoveError := none, moveError := none }

def fNoHash : FileEntry :=
  { name := "scan.dat", ext := ".dat", size := 4, mtimeYear := 2024,
    mtimeMonth := 7, hash := none, is_file := true, statError := none,
    dupMoveError := none, moveError := none }

def appFile : FileEntry :=
  { name := "app.py", ext := ".py", size := 1, mtimeYear := 2024,
    mtimeMonth := 1, hash := some ("ha"), is_file := true, statError := none,
    dupMoveError := none, moveError := none }

def fMoveErr : FileEntry :=
  { name := "report.pdf", ext := ".pdf", size := 9, mtimeYear := 2024,
    mtimeMonth := 3, hash := some ("h9"), is_file := true, statError := none,
    dupMoveError := none, moveError := some ("disk full") }

def fDupB : FileEntry :=
  { name := "b.png", ext := ".png", size := 6, mtimeYear := 2024,
    mtimeMonth := 7, hash := some ("h1"), is_file := true, statError := none,
    dupMoveError := none, moveError := none }

def fDupErr : FileEntry :=
  { name := "c.png", ext := ".png", size := 6, mtimeYear := 2024,
    mtimeMonth := 7, hash := some ("h1"), is_file := true, statError := none,
    dupMoveError := some ("locked"), moveError := none }

lemma find_category_table :
    ∀ p ∈ FILE_CATEGORIES, ∀ x ∈ p.2,
      FILE_CATEGORIES.find? (fun q => q.2.contains x) = some p := by decide

/-- Claim C4: get_category returns the owning category for any extension in
the static table after lower-casing; otherwise, when the MIME guess has a
top-level type among image, video, audio, the capitalized pluralized form
of that type, in particular Audios for audio; otherwise Others. -/
theorem get_category_spec (gm : String → Option String) (extension : String) :
    (∀ cat exts, (cat, exts) ∈ FILE_CATEGORIES → pyLower extension ∈ exts →
       get_category gm extension = cat) ∧
    (∀ mime, (∀ p ∈ FILE_CATEGORIES, pyLower extension ∉ p.2) →
       gm (pyLower extension) = some mime →
       mainTypeOf mime ∈ [("image"), ("video"), ("audio")] →
       get_category gm extension = pyCapitalize (mainTypeOf mime) ++ "s") ∧
    (∀ mime, (∀ p ∈ FILE_CATEGORIES, pyLower extension ∉ p.2) →
       gm (pyLower extension) = some mime →
       mainTypeOf mime = "audio" →
       get_category gm extension = "Audios") ∧
    ((∀ p ∈ FILE_CATEGORIES, pyLower extension ∉ p.2) →
       (∀ mime, gm (pyLower extension) = some mime →
          mainTypeOf mime ∉ [("image"), ("video"), ("audio")]) →
       get_category gm extension = "Others") := by
  have hnone : (∀ p ∈ FILE_CATEGORIES, pyLower extension ∉ p.2) →
      FILE_CATEGORIES.find? (fun q => q.2.contains (pyLower extension)) = none := by
    intro h
    refine List.find?_eq_none.mpr ?_
    intro p hp hc
    exact h p hp (List.elem_iff.mp hc)
  have hpart2 : ∀ mime, (∀ p ∈ FILE_CATEGORIES, pyLower extension ∉ p.2) →
      gm (pyLower extension) = some mime →
      mainTypeOf mime ∈ [("image"), ("video"), ("audio")] →
      get_category gm extension = pyCapitalize (mainTypeOf mime) ++ "s" := by
    intro mime h hgm hmain
    simp only [get_category, hnone h, hgm]
    rw [if_pos (List.elem_iff.mpr hmain)]
  refine ⟨?_, hpart2, ?_, ?_⟩
  · intro cat exts hmem hx
    have hf := find_category_table (cat, exts) hmem (pyLower extension) hx
    simp only [get_category, hf]
  · intro mime h hgm hmain
    have h2 := hpart2 mime h hgm (by rw [hmain]; decide)
    rw [hmain] at h2
    rw [h2]; decide
  · intro h hmime
    simp only [get_category, hnone h]
    cases hgm : gm (pyLower extension) with
    | none => rfl
    | some mime =>
      have := hmime mime hgm
      simp only []
      rw [if_neg (fun hc => this (List.elem_iff.mp hc))]

/-- Witness for C4 at concrete inputs. -/
theorem get_category_spec_witness :
    get_category gmAudio (".PDF") = "Documents" ∧
    get_category gmAudio (".xyz") = "Audios" ∧
    get_category gmNone (".xyz") = "Others" :=
  ⟨(get_category_spec gmAudio (".PDF")).1 ("Documents")
      [(".pdf"), (".docx"), (".txt"), (".pptx"), (".xlsx"), (".csv")]
      (by decide) (by decide),
   (get_category_spec gmAudio (".xyz")).2.2.1 ("audio/mpeg")
      (by decide) (by decide) (by decide),
   (get_category_spec gmNone (".xyz")).2.2.2 (by decide)
      (fun mime h => by simp [gmNone] at h)⟩

/-- Claim C5: get_destination_path yields root/category for mode Category
Only, root/category/year for Category / Year, root/category/year-month for
Category / Year-Month, and falls back to root/category for any other mode
string. -/
theorem get_destination_path_spec (folder : List String) (f : FileEntry)
    (category : String) :
    get_destination_path folder f category ("Category Only") = folder ++ [category] ∧
    get_destination_path folder f category ("Category / Year") =
      folder ++ [category, formatYear f.mtimeYear] ∧
    get_destination_path folder f category ("Category / Year-Month") =
      folder ++ [category, formatYear f.mtimeYear ++ "-" ++ formatMonth f.mtimeMonth] ∧
    (∀ mode, mode ≠ "Category Only" → mode ≠ "Category / Year" →
       mode ≠ "Category / Year-Month" →
       get_destination_path folder f category mode = folder ++ [category]) := by
  refine ⟨?_, ?_, ?_, ?_⟩
  · rw [get_destination_path, if_pos rfl]
  · rw [get_destination_path, if_neg (by decide), if_pos rfl]
  · rw [get_destination_path, if_neg (by decide), if_neg (by decide), if_pos rfl]
  · intro mode h1 h2 h3
    rw [get_destination_path, if_neg h1, if_neg h2, if_neg h3]

/-- Witness for C5: a file modified 2024-07 in category Images under mode
Category / Year-Month lands in root/Images/2024-07, and an unrecognized
mode falls back to root/Images. -/
theorem get_destination_path_spec_witness :
    get_destination_path [("root")] exFile ("Images") ("Category / Year-Month") =
      [("root"), ("Images"), ("2024-07")] ∧
    get_destination_path [("root")] exFile ("Images") ("Bogus") =
      [("root"), ("Images")] :=
  ⟨((get_destination_path_spec [("root")] exFile ("Images")).2.2.1).trans (by decide),
   ((get_destination_path_spec [("root")] exFile ("Images")).2.2.2 ("Bogus")
      (by decide) (by decide) (by decide)).trans (by decide)⟩

lemma organizePhase_logs (cfg : Config) (st : RunState) (f : FileEntry) :
    ((organizePhase cfg st f).1).logs = st.logs := by
  unfold organizePhase
  cases hm : f.moveError <;> rfl

lemma fileStep_logs (cfg : Config) (st : RunState) (f : FileEntry) :
    ((fileStep cfg st f).1).logs = st.logs := by
  unfold fileStep
  cases hs : f.statError
  · cases hcd : cfg.check_duplicates
    · simp [organizePhase_logs]
    · cases hh : f.hash
      · simp [organizePhase_logs]
      · rename_i h
        cases hl : st.seen.lookup h
        · simp [hl, organizePhase_logs]
        · cases hd : f.dupMoveError <;> simp [hl, hd]
  · rfl

lemma processFile_logs (cfg : Config) (total : Nat) (st : RunState) (i : Nat)
    (f : FileEntry) :
    (processFile cfg total st i f).logs = st.logs ++ [(fileStep cfg st f).2.1] := by
  unfold processFile
  cases hcb : cfg.hasCallback <;> simp [hcb, fileStep_logs]

lemma runLoop_append (cfg : Config) (total : Nat) (xs ys : List FileEntry) :
    ∀ st i, runLoop cfg total st i (xs ++ ys) =
      runLoop cfg total (runLoop cfg total st i xs) (i + xs.length) ys := by
  induction xs with
  | nil => intro st i; simp [runLoop]
  | cons f rest ih =>
    intro st i
    have he : i + (f :: rest).length = (i + 1) + rest.length := by
      simp only [List.length_cons]
      omega
    simp only [List.cons_append, runLoop, List.append_eq]
    rw [ih, he]

lemma runLoop_logs (cfg : Config) (total : Nat) (xs : List FileEntry) :
    ∀ st i, ∃ tl : List String,
      (runLoop cfg total st i xs).logs = st.logs ++ tl ∧ tl.length = xs.length := by
  induction xs with
  | nil => intro st i; exact ⟨[], by simp [runLoop]⟩
  | cons f rest ih =>
    intro st i
    obtain ⟨tl, htl, hlen⟩ := ih (processFile cfg total st i f) (i + 1)
    refine ⟨(fileStep cfg st f).2.1 :: tl, ?_, by simp [hlen]⟩
    rw [runLoop, htl, processFile_logs]
    simp

lemma fileStep_error (cfg : Config) (st : RunState) (f : FileEntry) (e : String)
    (he : fileError cfg.check_duplicates st.seen f = some e) :
    (fileStep cfg st f).2.1 = "ERROR moving " ++ f.name ++ ": " ++ e := by
  cases hs : f.statError with
  | some e0 =>
    have he2 : e0 = e := by
      rw [fileError, hs] at he
      exact Option.some.inj he
    subst he2
    simp [fileStep, hs]
  | none =>
    cases hcd : cfg.check_duplicates with
    | false =>
      have hm : f.moveError = some e := by simpa [fileError, hs, hcd] using he
      simp [fileStep, hs, hcd, organizePhase, hm]
    | true =>
      cases hh : f.hash with
      | none =>
        have hm : f.moveError = some e := by simpa [fileError, hs, hcd, hh] using he
        simp [fileStep, hs, hcd, hh, organizePhase, hm]
      | some h =>
        cases hl : st.seen.lookup h with
        | some n =>
          have hm : f.dupMoveError = some e := by
            simpa [fileError, hs, hcd, hh, hl] using he
          simp [fileStep, hs, hcd, hh, hl, hm]
        | none =>
          have hm : f.moveError = some e := by
            simpa [fileError, hs, hcd, hh, hl] using he
          simp [fileStep, hs, hcd, hh, hl, organizePhase, hm]

/-- Claim C1: any exception raised while processing an individual file is
converted into an ERROR moving log line at the position of that file, the
loop continues (every eligible file contributes exactly one log line, so
no exception escapes organize_files). -/
theorem organize_files_error_isolation (cfg : Config) (elapsed : Nat)
    (entries : List FileEntry) (i : Nat) (f : FileEntry) (e : String)
    (hf : (eligible entries)[i]? = some f)
    (he : fileError cfg.check_duplicates
        (runLoop cfg (eligible entries).length initState 1
          ((eligible entries).take i)).seen f = some e) :
    (organize_files cfg elapsed entries).logs.length = (eligible entries).length ∧
    (organize_files cfg elapsed entries).logs[i]? =
      some ("ERROR moving " ++ f.name ++ ": " ++ e) := by
  have hi : i < (eligible entries).length := by
    by_contra hlt
    rw [List.getElem?_eq_none (by omega)] at hf
    cases hf
  have hgot : (eligible entries)[i] = f := by
    have := List.getElem?_eq_some.mp hf
    obtain ⟨h1, h2⟩ := this
    exact h2
  have htot : ¬ (eligible entries).length = 0 := by omega
  have hlogs : (organize_files cfg elapsed entries).logs =
      (runLoop cfg (eligible entries).length initState 1 (eligible entries)).logs := by
    simp only [organize_files]
    rw [if_neg htot]
  have hsplit : eligible entries =
      (eligible entries).take i ++ f :: (eligible entries).drop (i + 1) := by
    conv_lhs => rw [← List.take_append_drop i (eligible entries)]
    rw [List.drop_eq_getElem_cons hi, hgot]
  have htake : ((eligible entries).take i).length = i := by
    rw [List.length_take]
    omega
  set stI := runLoop cfg (eligible entries).length initState 1
      ((eligible entries).take i) with hstI
  have hloop : (runLoop cfg (eligible entries).length initState 1 (eligible entries)) =
      runLoop cfg (eligible entries).length
        (processFile cfg (eligible entries).length stI (1 + i) f)
        (1 + i + 1) ((eligible entries).drop (i + 1)) := by
    nth_rewrite 2 [hsplit]
    rw [runLoop_append, htake, runLoop]
  obtain ⟨tl0, htl0, hlen0⟩ := runLoop_logs cfg (eligible entries).length
      ((eligible entries).take i) initState 1
  have hlenI : stI.logs.length = i := by
    rw [htl0]
    simp only [initState, List.nil_append]
    rw [hlen0, htake]
  obtain ⟨tl, htl, hlen⟩ := runLoop_logs cfg (eligible entries).length
      ((eligible entries).drop (i + 1))
      (processFile cfg (eligible entries).length stI (1 + i) f) (1 + i + 1)
  have herr : (fileStep cfg stI f).2.1 = "ERROR moving " ++ f.name ++ ": " ++ e :=
    fileStep_error cfg stI f e he
  have hfinal : (organize_files cfg elapsed entries).logs =
      stI.logs ++ ("ERROR moving " ++ f.name ++ ": " ++ e) :: tl := by
    rw [hlogs, hloop, htl, processFile_logs, herr]
    simp
  constructor
  · rw [hfinal]
    simp only [List.length_append, List.length_cons]
    rw [hlenI, hlen, List.length_drop]
    omega
  · rw [hfinal]
    rw [List.getElem?_append_right (by omega)]
    rw [hlenI]
    simp

/-- Witness for C1 at a concrete two-file run whose first file fails its
stat call. -/
theorem organize_files_error_isolation_witness :
    (organize_files cfg0 0 [fBad, fTxt]).logs.length = 2 ∧
    (organize_files cfg0 0 [fBad, fTxt]).logs[0]? =
      some ("ERROR moving bad.txt: denied") := by
  have h := organize_files_error_isolation cfg0 0 [fBad, fTxt] 0 fBad ("denied")
    rfl rfl
  exact ⟨h.1.trans rfl, h.2.trans rfl⟩

/-- Claim C2, evaluated at the failing input: a run over one file whose
hash is unreadable returns only the Moved log line.  The Warning string
the source assigns to log_entry on an unreadable hash is overwritten by
the Moved (or ERROR) assignment before the single append, so no warning
line ever reaches the returned log sequence. -/
theorem hash_warning_never_logged :
    (organize_files cfg0 0 [fNoHash]).logs = [("Moved: scan.dat → Others")] ∧
    ("Warning: Could not read hash for scan.dat. Skipping duplicate check.") ∉
      (organize_files cfg0 0 [fNoHash]).logs :=
  ⟨rfl, by decide⟩

/-- Claim C3: with duplicate checking on and exactly two eligible files of
identical hash, the first is moved to its categorized destination and
recorded in the seen-hash table, the second is moved to Duplicates
(Removed) with a DUPLICATE REMOVED log line and no categorization, the
report counts one duplicate, and the saved space is the second file size. -/
theorem duplicate_pair_run (cfg : Config) (elapsed : Nat)
    (entries : List FileEntry) (f1 f2 : FileEntry) (h : String)
    (helig : eligible entries = [f1, f2])
    (hcd : cfg.check_duplicates = true)
    (hs1 : f1.statError = none) (hh1 : f1.hash = some h) (hm1 : f1.moveError = none)
    (hs2 : f2.statError = none) (hh2 : f2.hash = some h)
    (hd2 : f2.dupMoveError = none) :
    (organize_files cfg elapsed entries).moves =
      [(f1.name, get_destination_path cfg.folder f1
          (get_category cfg.guessMime f1.ext) cfg.organize_mode),
       (f2.name, cfg.folder ++ [("Duplicates (Removed)")])] ∧
    (organize_files cfg elapsed entries).seen = [(h, f1.name)] ∧
    (organize_files cfg elapsed entries).analytics.duplicates_removed = 1 ∧
    (organize_files cfg elapsed entries).analytics.space_saved_bytes = f2.size ∧
    (organize_files cfg elapsed entries).analytics.categories =
      [(get_category cfg.guessMime f1.ext, 1)] ∧
    (organize_files cfg elapsed entries).logs =
      [("Moved: " ++ f1.name ++ " → " ++ String.intercalate ("/")
          ((get_destination_path cfg.folder f1 (get_category cfg.guessMime f1.ext)
            cfg.organize_mode).drop cfg.folder.length)),
       ("DUPLICATE REMOVED: " ++ f2.name ++ " -> Duplicates")] := by
  cases hcb : cfg.hasCallback <;>
    simp [organize_files, helig, runLoop, processFile, fileStep, organizePhase,
      bumpCategory, initState, List.lookup, hcd, hs1, hh1, hm1, hs2, hh2, hd2, hcb]

/-- Witness for C3 at a concrete run of two files with equal hash. -/
theorem duplicate_pair_run_witness :
    (organize_files cfg0 0 [exFile, fDupB]).moves =
      [(("photo.jpg"), [("root"), ("Images")]),
       (("b.png"), [("root"), ("Duplicates (Removed)")])] ∧
    (organize_files cfg0 0 [exFile, fDupB]).seen = [(("h1"), ("photo.jpg"))] ∧
    (organize_files cfg0 0 [exFile, fDupB]).analytics.duplicates_removed = 1 ∧
    (organize_files cfg0 0 [exFile, fDupB]).analytics.space_saved_bytes = 6 ∧
    (organize_files cfg0 0 [exFile, fDupB]).analytics.categories =
      [(("Images"), 1)] ∧
    (organize_files cfg0 0 [exFile, fDupB]).logs =
      [("Moved: photo.jpg → Images"),
       ("DUPLICATE REMOVED: b.png -> Duplicates")] := by
  have h := duplicate_pair_run cfg0 0 [exFile, fDupB] exFile fDupB ("h1")
    rfl rfl rfl rfl rfl rfl rfl rfl
  exact ⟨h.1.trans rfl, h.2.1.trans rfl, h.2.2.1, h.2.2.2.1.trans rfl,
    h.2.2.2.2.1.trans rfl, h.2.2.2.2.2.trans rfl⟩

/-- Claim C6: a run with no eligible files emits exactly the progress
event (100, No files to organize), returns an empty log sequence, and a
report whose numeric fields are all zero, whose category map is empty,
and whose elapsed time is recorded. -/
theorem organize_files_empty_run (cfg : Config) (elapsed : Nat)
    (entries : List FileEntry) (hemp : eligible entries = [])
    (hcb : cfg.hasCallback = true) :
    organize_files cfg elapsed entries =
      { logs := [],
        analytics := { total_files := 0, total_size_bytes := 0, categories := [],
                       time_taken_sec := elapsed, duplicates_removed := 0,
                       space_saved_bytes := 0, logs := [] },
        events := [(100, "No files to organize")], moves := [], seen := [] } := by
  simp [organize_files, hemp, hcb]

/-- Witness for C6: a folder containing only the excluded entry-point
script has no eligible files. -/
theorem organize_files_empty_run_witness :
    organize_files cfg0 7 [appFile] =
      { logs := [],
        analytics := { total_files := 0, total_size_bytes := 0, categories := [],
                       time_taken_sec := 7, duplicates_removed := 0,
                       space_saved_bytes := 0, logs := [] },
        events := [(100, "No files to organize")], moves := [], seen := [] } :=
  organize_files_empty_run cfg0 7 [appFile] rfl rfl

/-- Claim C7: a file whose hash is the absent sentinel is still
categorized and moved to its categorized destination when
check_duplicates is enabled: the move list gains exactly its categorized
destination, the duplicate counters are untouched, and its category
counter is incremented. -/
theorem hash_none_still_organized (cfg : Config) (total : Nat) (st : RunState)
    (i : Nat) (f : FileEntry) (hcd : cfg.check_duplicates = true)
    (hh : f.hash = none) (hs : f.statError = none) (hm : f.moveError = none) :
    (processFile cfg total st i f).moves = st.moves ++
      [(f.name, get_destination_path cfg.folder f
          (get_category cfg.guessMime f.ext) cfg.organize_mode)] ∧
    (processFile cfg total st i f).duplicate_files = st.duplicate_files ∧
    (processFile cfg total st i f).space_saved_bytes = st.space_saved_bytes ∧
    (processFile cfg total st i f).categories =
      bumpCategory st.categories (get_category cfg.guessMime f.ext) := by
  cases hcb : cfg.hasCallback <;>
    simp [processFile, fileStep, organizePhase, hcd, hh, hs, hm, hcb]

/-- Witness for C7 at a concrete unreadable-hash file. -/
theorem hash_none_still_organized_witness :
    (processFile cfg0 1 initState 1 fNoHash).moves =
      [(("scan.dat"), [("root"), ("Others")])] ∧
    (processFile cfg0 1 initState 1 fNoHash).duplicate_files = 0 ∧
    (processFile cfg0 1 initState 1 fNoHash).space_saved_bytes = 0 ∧
    (processFile cfg0 1 initState 1 fNoHash).categories = [(("Others"), 1)] := by
  have h := hash_none_still_organized cfg0 1 initState 1 fNoHash rfl rfl rfl rfl
  exact ⟨h.1.trans rfl, h.2.1.trans rfl, h.2.2.1.trans rfl, h.2.2.2.trans rfl⟩

/-- Claim C8: the source computes each per-file progress percent as
int((i / total) * 100) in IEEE double arithmetic.  At file 29 of a
50-file run this evaluates to 57 (the double nearest 29 / 50 is slightly
below 0.58, and multiplying by 100 and truncating yields 57), while the
formula floor(i / total × 100) stated by the claim gives 58, so the
emitted percent undershoots the claimed floor value at this input. -/
theorem progress_percent_float_undershoot :
    pyFloatPercent 29 50 = 57 ∧ (100 * 29) / 50 = 58 := by
  exact ⟨rfl, rfl⟩

/-- Claim C9: for a non-duplicate file, the per-category counter is
incremented before the move is attempted, so when destination creation or
the move raises, the count is kept while no move is recorded and the log
line is the ERROR line. -/
theorem category_counted_before_move (cfg : Config) (total : Nat)
    (st : RunState) (i : Nat) (f : FileEntry) (e : String)
    (hs : f.statError = none)
    (hnd : cfg.check_duplicates = false ∨ f.hash = none ∨
      (∃ h, f.hash = some h ∧ st.seen.lookup h = none))
    (hm : f.moveError = some e) :
    (processFile cfg total st i f).categories =
      bumpCategory st.categories (get_category cfg.guessMime f.ext) ∧
    (processFile cfg total st i f).moves = st.moves ∧
    (processFile cfg total st i f).logs =
      st.logs ++ [("ERROR moving " ++ f.name ++ ": " ++ e)] := by
  rcases hnd with hcd | hh | ⟨h, hh, hl⟩
  · cases hcb : cfg.hasCallback <;>
      simp [processFile, fileStep, organizePhase, hs, hm, hcb, hcd]
  · cases hcd : cfg.check_duplicates <;> cases hcb : cfg.hasCallback <;>
      simp [processFile, fileStep, organizePhase, hs, hm, hcb, hcd, hh]
  · cases hcd : cfg.check_duplicates <;> cases hcb : cfg.hasCallback <;>
      simp [processFile, fileStep, organizePhase, hs, hm, hcb, hcd, hh, hl]

/-- Witness for C9 at a concrete file whose move fails. -/
theorem category_counted_before_move_witness :
    (processFile cfg1 1 initState 1 fMoveErr).categories = [(("Documents"), 1)] ∧
    (processFile cfg1 1 initState 1 fMoveErr).moves = [] ∧
    (processFile cfg1 1 initState 1 fMoveErr).logs =
      [("ERROR moving report.pdf: disk full")] := by
  have h := category_counted_before_move cfg1 1 initState 1 fMoveErr
    ("disk full") rfl (Or.inl rfl) rfl
  exact ⟨h.1.trans rfl, h.2.1.trans rfl, h.2.2.trans rfl⟩

/-- Claim C10: when the second of two identical files fails its move into
the duplicates folder, the duplicate counter and saved-space total keep
their incremented values while the log records the ERROR line instead of
DUPLICATE REMOVED and no move of that file is recorded. -/
theorem duplicate_counted_before_move (cfg : Config) (elapsed : Nat)
    (entries : List FileEntry) (f1 f2 : FileEntry) (h e : String)
    (helig : eligible entries = [f1, f2])
    (hcd : cfg.check_duplicates = true)
    (hs1 : f1.statError = none) (hh1 : f1.hash = some h) (hm1 : f1.moveError = none)
    (hs2 : f2.statError = none) (hh2 : f2.hash = some h)
    (hd2 : f2.dupMoveError = some e) :
    (organize_files cfg elapsed entries).analytics.duplicates_removed = 1 ∧
    (organize_files cfg elapsed entries).analytics.space_saved_bytes = f2.size ∧
    (organize_files cfg elapsed entries).moves =
      [(f1.name, get_destination_path cfg.folder f1
          (get_category cfg.guessMime f1.ext) cfg.organize_mode)] ∧
    (organize_files cfg elapsed entries).logs =
      [("Moved: " ++ f1.name ++ " → " ++ String.intercalate ("/")
          ((get_destination_path cfg.folder f1 (get_category cfg.guessMime f1.ext)
            cfg.organize_mode).drop cfg.folder.length)),
       ("ERROR moving " ++ f2.name ++ ": " ++ e)] := by
  cases hcb : cfg.hasCallback <;>
    simp [organize_files, helig, runLoop, processFile, fileStep, organizePhase,
      bumpCategory, initState, List.lookup, hcd, hs1, hh1, hm1, hs2, hh2, hd2, hcb]

/-- Witness for C10 at a concrete run whose duplicate move fails. -/
theorem duplicate_counted_before_move_witness :
    (organize_files cfg0 0 [exFile, fDupErr]).analytics.duplicates_removed = 1 ∧
    (organize_files cfg0 0 [exFile, fDupErr]).analytics.space_saved_bytes = 6 ∧
    (organize_files cfg0 0 [exFile, fDupErr]).moves =
      [(("photo.jpg"), [("root"), ("Images")])] ∧
    (organize_files cfg0 0 [exFile, fDupErr]).logs =
      [("Moved: photo.jpg → Images"), ("ERROR moving c.png: locked")] := by
  have h := duplicate_counted_before_move cfg0 0 [exFile, fDupErr] exFile fDupErr
    ("h1") ("locked") rfl rfl rfl rfl rfl rfl rfl rfl
  exact ⟨h.1, h.2.1.trans rfl, h.2.2.1.trans rfl, h.2.2.2.trans rfl⟩
